import Mathlib

/-!
Verification of the NSO MCP server adapter layer (`main.py`, `tools.py`).

Python strings are embedded as `List Char`; the Python string operations used
by the source (`str.strip`, `str.lower`, `str.split`, substring containment
via `in`) are modelled by the `py*` functions below.  Each operation handler
of `main.py` is embedded as a pure function over an explicit `Store` record
that captures the slice of the external NSO datastore the handler reads:
keyed device / device-group lists, the ned-id list, the service-type names,
and the store-reported outcomes of the server-side `sync_from` / `check_sync`
actions.  Handler-raised `ValueError`s become `Except.error` carrying the
exact message built by the source; store-side failures (a missing key on a
direct index, an unresolvable keypath) also become `Except.error`, with a
store-defined message this layer never inspects.  For the resource-scoping
claims the three transaction-opening handlers are additionally embedded in a
traced form that records acquire/release events of Python `with` blocks.
-/

/-- Python `str.lower` (ASCII model): lowercase every character. -/
def pylower (s : List Char) : List Char := s.map Char.toLower

/-- Python `str.strip()`: drop leading and trailing whitespace. -/
def pystrip (s : List Char) : List Char :=
  ((s.dropWhile Char.isWhitespace).reverse.dropWhile Char.isWhitespace).reverse

/-- Python `str.split(sep)` (no maxsplit): split on every occurrence of `sep`. -/
def pysplit (sep : Char) : List Char → List (List Char)
  | [] => [[]]
  | c :: cs =>
    if c = sep then [] :: pysplit sep cs
    else
      match pysplit sep cs with
      | [] => [[c]]
      | r :: rs => (c :: r) :: rs

/-- Python `str.split(sep, 1)` (maxsplit = 1): split at the first occurrence
of `sep` only; the remainder is kept intact in the second segment. -/
def pysplit1 (sep : Char) : List Char → List (List Char)
  | [] => [[]]
  | c :: cs =>
    if c = sep then [[], cs]
    else
      match pysplit1 sep cs with
      | [] => [[c]]
      | r :: rs => (c :: r) :: rs

/-- Python `needle in hay` on strings: contiguous substring containment. -/
def isSub (needle : List Char) : List Char → Bool
  | [] => needle.isEmpty
  | c :: t => needle.isPrefixOf (c :: t) || isSub needle t

/-- A Python `for`-loop that conditionally `append`s one element per
iteration onto an initially empty accumulator list, the shape of every
list-building handler in `main.py`. -/
def loopAppend (f : α → Option β) (l : List α) : List β :=
  l.foldl (fun acc x => match f x with | some y => acc ++ [y] | none => acc) []

/-- Everything after the first occurrence of `sep`, used to phrase the
amended namespace-stripping rule in spec words. -/
def dropThroughFirst (sep : Char) : List Char → List Char
  | [] => []
  | c :: cs => if c = sep then cs else dropThroughFirst sep cs

/-- One raw device record as the handlers read it from the store.  A maagic
leaf that is unset or empty is falsy in the source's `if` tests, so the two
ned-id leaves are modelled as `List Char` with `[]` standing for an
unset/empty leaf.  `sync_result` and `check_sync_result` record the
store-reported outcome strings of the server-side `sync_from` / `check_sync`
actions on this device (external collaborator behaviour, per the spec's
handler table). -/
structure Device where
  name : List Char
  address : List Char
  platform_name : List Char
  platform_version : List Char
  platform_model : List Char
  netconf_ned_id : List Char
  cli_ned_id : List Char
  service_list : List (List Char)
  sync_result : List Char
  check_sync_result : List Char
deriving DecidableEq

/-- One entry of the per-member outcome list the store reports for a
device-group `sync_from` action (`result.sync_result` in the source). -/
structure GroupSyncItem where
  device : List Char
  result : List Char
deriving DecidableEq

/-- One device group: its key, its member-device names
(`group.device_name.as_list()`), and the store-reported per-member outcome
list of the group `sync_from` action. -/
structure DeviceGroup where
  name : List Char
  device_name : List (List Char)
  sync_outcome : List GroupSyncItem
deriving DecidableEq

/-- A node resolvable by keypath, carrying the stringified `in_sync` field of
its `check_sync` action result. -/
structure ServiceNode where
  path : List Char
  in_sync : List Char
deriving DecidableEq

/-- The slice of the NSO datastore the embedded handlers read. -/
structure Store where
  ned_ids : List (List Char)
  devices : List Device
  device_groups : List DeviceGroup
  services : List (List Char)
  service_nodes : List ServiceNode
deriving DecidableEq

/-- Response model `DeviceInfo` from `tools.py`. -/
structure DeviceInfo where
  name : List Char
  address : List Char
  platform_version : List Char
  platform_name : List Char
  platform_model : List Char
  ned_type : List Char
  ned : List Char
deriving DecidableEq

/-- Response model `SyncResult` from `tools.py`. -/
structure SyncResult where
  name : List Char
  result : List Char
deriving DecidableEq

/-- `build_device_info` from `tools.py`: resolve the driver binding
(netconf first, then cli, else unknown), strip a two-segment namespace
prefix, copy the identity/platform fields. -/
def build_device_info (device : Device) : DeviceInfo :=
  let nt : List Char × List Char :=
    if device.netconf_ned_id ≠ [] then ("netconf".data, device.netconf_ned_id)
    else if device.cli_ned_id ≠ [] then ("cli".data, device.cli_ned_id)
    else ("unknown".data, "unknown".data)
  let ned : List Char :=
    if (pysplit ':' nt.2).length = 2 then (pysplit ':' nt.2).getD 1 []
    else nt.2
  { name := device.name
    address := device.address
    platform_version := device.platform_version
    platform_name := device.platform_name
    platform_model := device.platform_model
    ned_type := nt.1
    ned := ned }

/-- The fixed exclusion list written inline in `get_neds_list`. -/
def excludedNeds : List (List Char) :=
  ["ned:lsa-netconf".data, "ned:netconf".data, "ned:snmp".data]

/-- `get_neds_list` from `main.py`: every ned id except the three built-in
ones, with a two-segment namespace prefix stripped. -/
def get_neds_list (st : Store) : List (List Char) :=
  loopAppend (fun nid =>
    if nid ∈ excludedNeds then none
    else if (pysplit ':' nid).length = 2 then some ((pysplit ':' nid).getD 1 [])
    else some nid) st.ned_ids

/-- The `ValueError` message of `get_device_info` /
`get_device_configured_services` for a missing device. -/
def deviceNotFoundMsg (k : List Char) : List Char :=
  "Device ".data ++ k ++ " not found in NSO CDB".data

/-- The `ValueError` message of `sync_device_group` /
`get_devices_from_device_group` for a missing group. -/
def groupNotFoundMsg (k : List Char) : List Char :=
  "The device group ".data ++ k ++ " could not be found in NSO CDB".data

/-- Modelled from the spec: indexing a keyed maagic list with a missing key
raises a store-side error (spec error kind UpstreamFailure) whose message is
store-defined; this layer never builds or inspects it. -/
def keyErrorMsg (k : List Char) : List Char :=
  "KeyError: ".data ++ k

/-- Modelled from the spec: `ncs.maagic.get_node` resolves a keypath to a
node by exact match against the store's data tree; an unresolvable path
raises a store-side error (spec error kind UpstreamFailure). -/
def get_node (st : Store) (path : List Char) : Option ServiceNode :=
  st.service_nodes.find? (fun n => n.path == path)

/-- Modelled from the spec: the store-defined message of the upstream error
raised for an unresolvable keypath; this layer never inspects it. -/
def keypathErrorMsg (p : List Char) : List Char :=
  "no such node: ".data ++ p

/-- `get_device_info` from `main.py`: existence check on the trimmed name,
then project via `build_device_info`; `ValueError` when absent. -/
def get_device_info (st : Store) (device_name : List Char) :
    Except (List Char) DeviceInfo :=
  match st.devices.find? (fun d => d.name == pystrip device_name) with
  | some d => .ok (build_device_info d)
  | none => .error (deviceNotFoundMsg (pystrip device_name))

/-- `check_sync_devices_status` from `main.py`: direct keyed index on the
trimmed name (no existence check), then the device's `check_sync` result. -/
def check_sync_devices_status (st : Store) (device_name : List Char) :
    Except (List Char) (List Char) :=
  match st.devices.find? (fun d => d.name == pystrip device_name) with
  | some d => .ok d.check_sync_result
  | none => .error (keyErrorMsg (pystrip device_name))

/-- `sync_device` from `main.py`: direct keyed index on the trimmed name,
`sync_from`, and a `SyncResult` whose `name` is the trimmed argument. -/
def sync_device (st : Store) (device_name : List Char) :
    Except (List Char) SyncResult :=
  match st.devices.find? (fun d => d.name == pystrip device_name) with
  | some d => .ok (SyncResult.mk (pystrip device_name) d.sync_result)
  | none => .error (keyErrorMsg (pystrip device_name))

/-- `sync_device_group` from `main.py`: existence check on the trimmed group
name (`ValueError` when absent), group `sync_from`, then one `SyncResult`
appended per entry of the store's per-member outcome list. -/
def sync_device_group (st : Store) (device_group_name : List Char) :
    Except (List Char) (List SyncResult) :=
  match st.device_groups.find? (fun g => g.name == pystrip device_group_name) with
  | some g =>
      .ok (loopAppend (fun it => some (SyncResult.mk it.device it.result))
        g.sync_outcome)
  | none => .error (groupNotFoundMsg (pystrip device_group_name))

/-- `get_devices_from_device_group` from `main.py`. -/
def get_devices_from_device_group (st : Store) (device_group_name : List Char) :
    Except (List Char) (List (List Char)) :=
  match st.device_groups.find? (fun g => g.name == pystrip device_group_name) with
  | some g => .ok g.device_name
  | none => .error (groupNotFoundMsg (pystrip device_group_name))

/-- `get_devices_list_per_model_dont_match_version` from `main.py`: keep the
devices whose lowercased platform name contains the cleaned model string and
whose lowercased platform version does not contain the cleaned version
string. -/
def get_devices_list_per_model_dont_match_version
    (st : Store) (model version : List Char) : List DeviceInfo :=
  let clean_model := pylower (pystrip model)
  let clean_version := pylower (pystrip version)
  loopAppend (fun device =>
    if isSub clean_model (pylower device.platform_name) &&
        !(isSub clean_version (pylower device.platform_version)) then
      some (build_device_info device)
    else none) st.devices

/-- `get_day1_services` from `main.py`: keep service-type names containing
the marker `-day1-`, split each on the first `:` only and keep the stripped
second segment when the split produced two segments. -/
def get_day1_services (st : Store) : List (List Char) :=
  loopAppend (fun service =>
    if isSub "-day1-".data service then
      if (pysplit1 ':' service).length = 2 then
        some (pystrip ((pysplit1 ':' service).getD 1 []))
      else some service
    else none) st.services

/-- `get_all_services` from `main.py`: split each service-type name on the
first `:` only and keep the stripped second segment when the split produced
two segments. -/
def get_all_services (st : Store) : List (List Char) :=
  loopAppend (fun service =>
    if (pysplit1 ':' service).length = 2 then
      some (pystrip ((pysplit1 ':' service).getD 1 []))
    else some service) st.services

/-- `get_device_configured_services` from `main.py`: membership check on the
trimmed device name, then the device's raw service identifiers. -/
def get_device_configured_services (st : Store) (device_name : List Char) :
    Except (List Char) (List (List Char)) :=
  match st.devices.find? (fun d => d.name == pystrip device_name) with
  | some d => .ok d.service_list
  | none => .error (deviceNotFoundMsg (pystrip device_name))

/-- `check_service_sync_status` from `main.py`: resolve the keypath argument
exactly as given (the source performs no `strip()` on it), then the node's
stringified `in_sync` result. -/
def check_service_sync_status (st : Store) (ncs_keypath : List Char) :
    Except (List Char) (List Char) :=
  match get_node st ncs_keypath with
  | some node => .ok node.in_sync
  | none => .error (keypathErrorMsg ncs_keypath)

/-- Resource and action events for the traced handler embeddings. -/
inductive Ev where
  | acqReadTrans
  | relReadTrans
  | acqMaapi
  | relMaapi
  | acqSession
  | relSession
  | acqWriteTrans
  | relWriteTrans
  | actSyncFrom (target : List Char)
deriving DecidableEq, BEq

/-- A Python `with` block: the acquire event, the body's events, then the
release event — emitted on the normal exit path and on the exception path
alike, exactly the guarantee `__exit__` gives. -/
def withRes (acq rel : Ev) (body : Except (List Char) α × List Ev) :
    Except (List Char) α × List Ev :=
  (body.1, acq :: body.2 ++ [rel])

/-- Traced `get_device_info`: one read transaction around the body. -/
def get_device_info_tr (st : Store) (device_name : List Char) :
    Except (List Char) DeviceInfo × List Ev :=
  withRes .acqReadTrans .relReadTrans
    (match st.devices.find? (fun d => d.name == pystrip device_name) with
     | some d => (.ok (build_device_info d), [])
     | none => (.error (deviceNotFoundMsg (pystrip device_name)), []))

/-- Traced `sync_device`: Maapi, session and write transaction nested around
the body; the `sync_from` action fires only after the keyed index succeeds. -/
def sync_device_tr (st : Store) (device_name : List Char) :
    Except (List Char) SyncResult × List Ev :=
  withRes .acqMaapi .relMaapi (withRes .acqSession .relSession
    (withRes .acqWriteTrans .relWriteTrans
      (match st.devices.find? (fun d => d.name == pystrip device_name) with
       | some d =>
           (.ok (SyncResult.mk (pystrip device_name) d.sync_result),
            [Ev.actSyncFrom (pystrip device_name)])
       | none => (.error (keyErrorMsg (pystrip device_name)), []))))

/-- Traced `sync_device_group`: Maapi, session and write transaction nested
around the body; the group `sync_from` action fires only after the existence
check succeeds. -/
def sync_device_group_tr (st : Store) (device_group_name : List Char) :
    Except (List Char) (List SyncResult) × List Ev :=
  withRes .acqMaapi .relMaapi (withRes .acqSession .relSession
    (withRes .acqWriteTrans .relWriteTrans
      (match st.device_groups.find?
          (fun g => g.name == pystrip device_group_name) with
       | some g =>
           (.ok (loopAppend (fun it => some (SyncResult.mk it.device it.result))
               g.sync_outcome),
            [Ev.actSyncFrom (pystrip device_group_name)])
       | none =>
           (.error (groupNotFoundMsg (pystrip device_group_name)), []))))

/-- The release event an acquire event expects, `none` for non-acquires. -/
def relFor : Ev → Option Ev
  | .acqReadTrans => some .relReadTrans
  | .acqMaapi => some .relMaapi
  | .acqSession => some .relSession
  | .acqWriteTrans => some .relWriteTrans
  | _ => none

/-- Is this a release event? -/
def isRel : Ev → Bool
  | .relReadTrans => true
  | .relMaapi => true
  | .relSession => true
  | .relWriteTrans => true
  | _ => false

/-- Stack check that every acquired resource in a trace is released, in LIFO
order, with no stray release, and nothing left held at the end. -/
def wellScopedAux : List Ev → List Ev → Bool
  | [], stack => stack.isEmpty
  | e :: rest, stack =>
    match relFor e with
    | some r => wellScopedAux rest (r :: stack)
    | none =>
      if isRel e then
        match stack with
        | top :: stack2 => top == e && wellScopedAux rest stack2
        | [] => false
      else wellScopedAux rest stack

/-- A trace releases everything it acquires before it ends. -/
def wellScoped (t : List Ev) : Bool := wellScopedAux t []

/-- No store-mutating `sync_from` action occurs in the trace. -/
def noSyncActions (t : List Ev) : Bool :=
  t.all (fun e => match e with | .actSyncFrom _ => false | _ => true)

/-- The Driver Identifier stripping rule exactly as the examined claim words
it: split on `:`, return the second segment precisely when the split has
exactly two segments, otherwise the name unchanged. -/
def stripNsClaim (s : List Char) : List Char :=
  if (pysplit ':' s).length = 2 then (pysplit ':' s).getD 1 [] else s

/-- The amended service-name stripping rule: when the name contains a `:`,
the segment after the first `:` trimmed of surrounding whitespace, otherwise
the name unchanged. -/
def stripNsAmended (s : List Char) : List Char :=
  if ':' ∈ s then pystrip (dropThroughFirst ':' s) else s

/-- `v` differs from `e` only in letter case or leading/trailing
whitespace. -/
def isCaseTrimVariant (v e : List Char) : Prop :=
  pylower (pystrip v) = pylower (pystrip e)

/-- A store whose ned-id list holds one ordinary ned id. -/
def nedStore : Store :=
  { ned_ids := ["ned:cisco-iosxr".data]
    devices := []
    device_groups := []
    services := []
    service_nodes := [] }

/-- A store holding one resolvable service node, for the keypath-trimming
counterexample. -/
def pathStore : Store :=
  { ned_ids := []
    devices := []
    device_groups := []
    services := []
    service_nodes := [ServiceNode.mk "/ncs:services/l3vpn/vpn1".data "True".data] }

/-- A store holding one service-type name with two colons. -/
def svcStore : Store :=
  { ned_ids := []
    devices := []
    device_groups := []
    services := ["a:b:c".data]
    service_nodes := [] }

/-- The device of the spec's round-trip example. -/
def rDevice : Device :=
  { name := "r1".data
    address := "10.0.0.1".data
    platform_name := "ios-xr".data
    platform_version := "7.2".data
    platform_model := "NCS5500".data
    netconf_ned_id := "ned:iosxr".data
    cli_ned_id := []
    service_list := []
    sync_result := "true".data
    check_sync_result := "in-sync".data }

/-- A store holding exactly the round-trip example device. -/
def r1Store : Store :=
  { ned_ids := []
    devices := [rDevice]
    device_groups := []
    services := []
    service_nodes := [] }

/-- A store with no device groups at all. -/
def emptyStore : Store :=
  { ned_ids := []
    devices := []
    device_groups := []
    services := []
    service_nodes := [] }

/-- A three-member group whose store-reported outcome list has one failing
member. -/
def coreGroup : DeviceGroup :=
  { name := "core".data
    device_name := ["r1".data, "r2".data, "r3".data]
    sync_outcome :=
      [GroupSyncItem.mk "r1".data "true".data,
       GroupSyncItem.mk "r2".data "Connection refused".data,
       GroupSyncItem.mk "r3".data "true".data] }

/-- A group whose store-reported outcome names differ from the caller-visible
member names, to separate the two provenances of `SyncResult.name`. -/
def edgeGroup : DeviceGroup :=
  { name := "edge".data
    device_name := ["e1".data]
    sync_outcome := [GroupSyncItem.mk "reported-e1".data "true".data] }

/-- A device used for the sync-name provenance witness. -/
def r9Device : Device :=
  { name := "r9".data
    address := "10.0.0.9".data
    platform_name := "ios-xr".data
    platform_version := "7.4".data
    platform_model := "NCS540".data
    netconf_ned_id := "ned:iosxr".data
    cli_ned_id := []
    service_list := []
    sync_result := "true".data
    check_sync_result := "in-sync".data }

/-- A store holding the groups and device used by the sync witnesses. -/
def grpStore : Store :=
  { ned_ids := []
    devices := [r9Device]
    device_groups := [coreGroup, edgeGroup]
    services := []
    service_nodes := [] }

/-- A device matching model `ios-xr` with platform version `7.2`. -/
def xrDevice : Device :=
  { name := "xr1".data
    address := "10.0.0.2".data
    platform_name := "Cisco-IOS-XR".data
    platform_version := "7.2".data
    platform_model := "NCS5500".data
    netconf_ned_id := "ned:iosxr".data
    cli_ned_id := []
    service_list := []
    sync_result := "true".data
    check_sync_result := "in-sync".data }

/-- A store holding exactly the model-filter example device. -/
def filtStore : Store :=
  { ned_ids := []
    devices := [xrDevice]
    device_groups := []
    services := []
    service_nodes := [] }

/-- A device record with no netconf and no cli driver id. -/
def bareDevice : Device :=
  { name := "b1".data
    address := "10.0.0.3".data
    platform_name := "junos".data
    platform_version := "21.4".data
    platform_model := "MX204".data
    netconf_ned_id := []
    cli_ned_id := []
    service_list := []
    sync_result := "true".data
    check_sync_result := "in-sync".data }

/-- `get_devices_name_list` from `main.py`: every device name, appended in
scan order. -/
def get_devices_name_list (st : Store) : List (List Char) :=
  loopAppend (fun device => some device.name) st.devices

/-- `get_devices_groups_list` from `main.py`: every device-group name,
appended in scan order. -/
def get_devices_groups_list (st : Store) : List (List Char) :=
  loopAppend (fun group => some group.name) st.device_groups

/-- `get_devices_list_per_model` from `main.py`: the devices whose
lowercased platform name contains the cleaned model string. -/
def get_devices_list_per_model (st : Store) (model : List Char) :
    List DeviceInfo :=
  let clean_model := pylower (pystrip model)
  loopAppend (fun device =>
    if isSub clean_model (pylower device.platform_name) then
      some (build_device_info device)
    else none) st.devices

/-- `get_devices_list_per_model_and_version` from `main.py`: the devices
whose lowercased platform name contains the cleaned model string and whose
lowercased platform version contains the cleaned version string. -/
def get_devices_list_per_model_and_version
    (st : Store) (model version : List Char) : List DeviceInfo :=
  let clean_model := pylower (pystrip model)
  let clean_version := pylower (pystrip version)
  loopAppend (fun device =>
    if isSub clean_model (pylower device.platform_name) &&
        isSub clean_version (pylower device.platform_version) then
      some (build_device_info device)
    else none) st.devices

/-- Traced `get_neds_list`: one read transaction around the listing body,
which raises nothing of its own. -/
def get_neds_list_tr (st : Store) :
    Except (List Char) (List (List Char)) × List Ev :=
  withRes .acqReadTrans .relReadTrans (.ok (get_neds_list st), [])

/-- Traced `get_devices_name_list`: one read transaction around the body. -/
def get_devices_name_list_tr (st : Store) :
    Except (List Char) (List (List Char)) × List Ev :=
  withRes .acqReadTrans .relReadTrans (.ok (get_devices_name_list st), [])

/-- Traced `get_devices_groups_list`: one read transaction around the
body. -/
def get_devices_groups_list_tr (st : Store) :
    Except (List Char) (List (List Char)) × List Ev :=
  withRes .acqReadTrans .relReadTrans (.ok (get_devices_groups_list st), [])

/-- Traced `check_sync_devices_status`: one read transaction around the
body, whose outcome (result or propagated store failure on a missing key)
is the plain handler's. -/
def check_sync_devices_status_tr (st : Store) (device_name : List Char) :
    Except (List Char) (List Char) × List Ev :=
  withRes .acqReadTrans .relReadTrans
    (check_sync_devices_status st device_name, [])

/-- Traced `get_devices_from_device_group`: one read transaction around the
body, whose outcome (result or NotFound ValueError) is the plain
handler's. -/
def get_devices_from_device_group_tr (st : Store) (device_group_name : List Char) :
    Except (List Char) (List (List Char)) × List Ev :=
  withRes .acqReadTrans .relReadTrans
    (get_devices_from_device_group st device_group_name, [])

/-- Traced `get_devices_list_per_model`: one read transaction around the
filtering body. -/
def get_devices_list_per_model_tr (st : Store) (model : List Char) :
    Except (List Char) (List DeviceInfo) × List Ev :=
  withRes .acqReadTrans .relReadTrans
    (.ok (get_devices_list_per_model st model), [])

/-- Traced `get_devices_list_per_model_and_version`: one read transaction
around the filtering body. -/
def get_devices_list_per_model_and_version_tr
    (st : Store) (model version : List Char) :
    Except (List Char) (List DeviceInfo) × List Ev :=
  withRes .acqReadTrans .relReadTrans
    (.ok (get_devices_list_per_model_and_version st model version), [])

/-- Traced `get_devices_list_per_model_dont_match_version`: one read
transaction around the filtering body. -/
def get_devices_list_per_model_dont_match_version_tr
    (st : Store) (model version : List Char) :
    Except (List Char) (List DeviceInfo) × List Ev :=
  withRes .acqReadTrans .relReadTrans
    (.ok (get_devices_list_per_model_dont_match_version st model version), [])

/-- Traced `get_day1_services`: one read transaction around the body. -/
def get_day1_services_tr (st : Store) :
    Except (List Char) (List (List Char)) × List Ev :=
  withRes .acqReadTrans .relReadTrans (.ok (get_day1_services st), [])

/-- Traced `get_all_services`: one read transaction around the body. -/
def get_all_services_tr (st : Store) :
    Except (List Char) (List (List Char)) × List Ev :=
  withRes .acqReadTrans .relReadTrans (.ok (get_all_services st), [])

/-- Traced `get_device_configured_services`: one read transaction around the
body, whose outcome (result or NotFound ValueError) is the plain
handler's. -/
def get_device_configured_services_tr (st : Store) (device_name : List Char) :
    Except (List Char) (List (List Char)) × List Ev :=
  withRes .acqReadTrans .relReadTrans
    (get_device_configured_services st device_name, [])

/-- Traced `check_service_sync_status`: one read transaction around the
body, whose outcome (result or propagated store failure on an unresolvable
keypath) is the plain handler's. -/
def check_service_sync_status_tr (st : Store) (ncs_keypath : List Char) :
    Except (List Char) (List Char) × List Ev :=
  withRes .acqReadTrans .relReadTrans
    (check_service_sync_status st ncs_keypath, [])

theorem loopAppend_go (f : α → Option β) (l : List α) (acc : List β) :
    l.foldl (fun acc x => match f x with | some y => acc ++ [y] | none => acc) acc
      = acc ++ l.filterMap f := by
  induction l generalizing acc with
  | nil => simp
  | cons x t ih =>
    cases h : f x <;> simp [List.foldl_cons, ih, h, List.filterMap_cons]

theorem loopAppend_eq_filterMap (f : α → Option β) (l : List α) :
    loopAppend f l = l.filterMap f := by
  simpa using loopAppend_go f l []

theorem filterMap_some_fun (g : α → β) (l : List α) :
    l.filterMap (fun x => some (g x)) = l.map g := by
  induction l with
  | nil => rfl
  | cons x t ih => simp [List.filterMap_cons, ih]

theorem filterMap_guard (q : α → Bool) (g : α → β) (l : List α) :
    l.filterMap (fun x => if q x then some (g x) else none)
      = (l.filter q).map g := by
  induction l with
  | nil => rfl
  | cons x t ih =>
    by_cases h : q x <;> simp [List.filterMap_cons, List.filter_cons, h, ih]

theorem pysplit_ne_nil (sep : Char) (s : List Char) : pysplit sep s ≠ [] := by
  cases s with
  | nil => simp [pysplit]
  | cons c cs =>
    simp only [pysplit]
    split
    · simp
    · cases h : pysplit sep cs <;> simp

theorem length_pysplit (sep : Char) (s : List Char) :
    (pysplit sep s).length = s.count sep + 1 := by
  induction s with
  | nil => simp [pysplit]
  | cons c cs ih =>
    simp only [pysplit]
    split
    · rename_i hc
      simp [List.count_cons, hc, ih]
    · rename_i hc
      cases h : pysplit sep cs with
      | nil => exact absurd h (pysplit_ne_nil sep cs)
      | cons r rs =>
        have h2 : (r :: rs).length = cs.count sep + 1 := h ▸ ih
        simp [List.count_cons, hc] at h2 ⊢
        omega

theorem not_mem_of_mem_pysplit (sep : Char) (s t : List Char)
    (ht : t ∈ pysplit sep s) : sep ∉ t := by
  induction s generalizing t with
  | nil =>
    simp [pysplit] at ht
    simp [ht]
  | cons c cs ih =>
    simp only [pysplit] at ht
    split at ht
    · rcases List.mem_cons.mp ht with h | h
      · simp [h]
      · exact ih t h
    · rename_i hc
      cases h : pysplit sep cs with
      | nil => exact absurd h (pysplit_ne_nil sep cs)
      | cons r rs =>
        rw [h] at ht
        rcases List.mem_cons.mp ht with h2 | h2
        · subst h2
          intro hmem
          rcases List.mem_cons.mp hmem with h3 | h3
          · exact hc h3.symm
          · exact ih r (h ▸ List.mem_cons_self r rs) h3
        · exact ih t (h ▸ List.mem_cons_of_mem r h2)

theorem toNat_ofNat_valid {n : Nat} (h : n.isValidChar) :
    (Char.ofNat n).toNat = n := by
  rw [Char.ofNat, dif_pos h]
  simp [Char.ofNatAux, Char.toNat]
  rfl

theorem toLower_eq_colon {c : Char} (h : c.toLower = ':') : c = ':' := by
  unfold Char.toLower at h
  simp only [] at h
  split at h
  · exfalso
    rename_i hr
    have hv : (c.toNat + 32).isValidChar := by
      left
      omega
    have h2 := congrArg Char.toNat h
    rw [toNat_ofNat_valid hv] at h2
    have h3 : ((':' : Char)).toNat = 58 := by decide
    omega
  · exact h

theorem count_colon_pylower (s : List Char) :
    (pylower s).count ':' = s.count ':' := by
  induction s with
  | nil => rfl
  | cons c cs ih =>
    simp only [pylower, List.map_cons] at ih ⊢
    by_cases hc : c = ':'
    · subst hc
      have h1 : Char.toLower ':' = ':' := by decide
      simp [List.count_cons, h1, ih]
    · have h1 : Char.toLower c ≠ ':' := fun h => hc (toLower_eq_colon h)
      simp [List.count_cons, h1, hc, ih]

theorem count_colon_dropWhile (l : List Char) :
    (l.dropWhile Char.isWhitespace).count ':' = l.count ':' := by
  induction l with
  | nil => rfl
  | cons c cs ih =>
    by_cases hc : Char.isWhitespace c
    · have hne : c ≠ ':' := by
        intro h
        subst h
        simp [Char.isWhitespace] at hc
      simp [List.dropWhile_cons, hc, ih, List.count_cons, hne]
    · simp [List.dropWhile_cons, hc]

theorem count_colon_pystrip (s : List Char) :
    (pystrip s).count ':' = s.count ':' := by
  unfold pystrip
  rw [List.count_reverse, count_colon_dropWhile, List.count_reverse,
    count_colon_dropWhile]

theorem dropWhile_dropWhile (p : α → Bool) (l : List α) :
    (l.dropWhile p).dropWhile p = l.dropWhile p := by
  induction l with
  | nil => rfl
  | cons c cs ih =>
    by_cases h : p c <;> simp [List.dropWhile_cons, h, ih]

theorem exists_append_dropWhile (p : α → Bool) (l : List α) :
    ∃ t, t ++ l.dropWhile p = l := by
  induction l with
  | nil => exact ⟨[], rfl⟩
  | cons c cs ih =>
    by_cases h : p c
    · rcases ih with ⟨t, ht⟩
      exact ⟨c :: t, by simp [List.dropWhile_cons, h, ht]⟩
    · exact ⟨[], by simp [List.dropWhile_cons, h]⟩

theorem dropWhile_reverse_dropWhile_reverse (p : α → Bool) (l : List α)
    (hl : l.dropWhile p = l) :
    ((l.reverse.dropWhile p).reverse).dropWhile p
      = (l.reverse.dropWhile p).reverse := by
  rcases exists_append_dropWhile p l.reverse with ⟨t, ht⟩
  have hl2 : (l.reverse.dropWhile p).reverse ++ t.reverse = l := by
    have := congrArg List.reverse ht
    simpa using this
  cases hr : (l.reverse.dropWhile p).reverse with
  | nil => simp
  | cons a u =>
    rw [hr] at hl2
    have hla : l = a :: (u ++ t.reverse) := by
      rw [← hl2]
      simp
    by_cases hpa : p a
    · exfalso
      rw [hla, List.dropWhile_cons, if_pos hpa] at hl
      have hle := (List.dropWhile_sublist (l := u ++ t.reverse) p).length_le
      rw [hl] at hle
      simp only [List.length_cons] at hle
      omega
    · simp [List.dropWhile_cons, hpa]

theorem pystrip_idem (s : List Char) : pystrip (pystrip s) = pystrip s := by
  unfold pystrip
  have h1 : (s.dropWhile Char.isWhitespace).dropWhile Char.isWhitespace
      = s.dropWhile Char.isWhitespace := dropWhile_dropWhile _ s
  have h2 := dropWhile_reverse_dropWhile_reverse Char.isWhitespace
    (s.dropWhile Char.isWhitespace) h1
  rw [h2]
  rw [List.reverse_reverse, dropWhile_dropWhile]

theorem pysplit1_of_not_mem (sep : Char) (s : List Char) (h : sep ∉ s) :
    pysplit1 sep s = [s] := by
  induction s with
  | nil => rfl
  | cons c cs ih =>
    have hc : c ≠ sep := fun hcc => h (hcc ▸ List.mem_cons_self c cs)
    have hcs : sep ∉ cs := fun hm => h (List.mem_cons_of_mem c hm)
    simp only [pysplit1, if_neg hc, ih hcs]

theorem pysplit1_of_mem (sep : Char) (s : List Char) (h : sep ∈ s) :
    ∃ a, pysplit1 sep s = [a, dropThroughFirst sep s] := by
  induction s with
  | nil => simp at h
  | cons c cs ih =>
    by_cases hc : c = sep
    · subst hc
      exact ⟨[], by simp [pysplit1, dropThroughFirst]⟩
    · have hcs : sep ∈ cs := by
        rcases List.mem_cons.mp h with h1 | h1
        · exact absurd h1.symm hc
        · exact h1
      rcases ih hcs with ⟨a, ha⟩
      refine ⟨c :: a, ?_⟩
      simp only [pysplit1, if_neg hc, ha, dropThroughFirst]

theorem isPrefixOf_self_append (m t : List Char) :
    m.isPrefixOf (m ++ t) = true := by
  induction m with
  | nil => simp [List.isPrefixOf]
  | cons c cs ih => simp [List.isPrefixOf, ih]

theorem isSub_append_self (pre m suf : List Char) :
    isSub m (pre ++ m ++ suf) = true := by
  induction pre with
  | nil =>
    cases m with
    | nil =>
      cases suf with
      | nil => rfl
      | cons c t => simp [isSub, List.isPrefixOf]
    | cons c t =>
      have h1 := isPrefixOf_self_append (c :: t) suf
      simp only [List.nil_append, List.cons_append, isSub, Bool.or_eq_true]
      left
      simp only [← List.cons_append] at h1 ⊢
      exact h1
  | cons c p ih =>
    simp only [List.cons_append, isSub, Bool.or_eq_true]
    right
    simp only [← List.cons_append] at ih ⊢
    exact ih

theorem list_len2 {l : List α} (h : l.length = 2) : ∃ a b, l = [a, b] := by
  match l, h with
  | [a, b], _ => exact ⟨a, b, rfl⟩

theorem count_colon_mem_excluded {e : List Char} (he : e ∈ excludedNeds) :
    e.count ':' = 1 := by
  simp only [excludedNeds, List.mem_cons, List.not_mem_nil, or_false] at he
  rcases he with h | h | h <;> subst h <;> decide

theorem count_colon_ne_one_of_mem_neds (st : Store) (v : List Char)
    (hv : v ∈ get_neds_list st) : v.count ':' ≠ 1 := by
  unfold get_neds_list at hv
  rw [loopAppend_eq_filterMap] at hv
  rcases List.mem_filterMap.mp hv with ⟨nid, _, hf⟩
  by_cases h1 : nid ∈ excludedNeds
  · rw [if_pos h1] at hf
    exact absurd hf (by simp)
  · rw [if_neg h1] at hf
    by_cases h2 : (pysplit ':' nid).length = 2
    · rw [if_pos h2] at hf
      rcases list_len2 h2 with ⟨a, b, hab⟩
      have hgb : (pysplit ':' nid).getD 1 [] = b := by
        rw [hab]
        simp [List.getD]
      rw [hgb] at hf
      have hbv : b = v := by injection hf
      subst hbv
      have hb : ':' ∉ b :=
        not_mem_of_mem_pysplit ':' nid b (by rw [hab]; simp)
      rw [List.count_eq_zero.mpr hb]
      omega
    · rw [if_neg h2] at hf
      have hfv : nid = v := by injection hf
      subst hfv
      have hlen := length_pysplit ':' nid
      intro hcnt
      rw [hcnt] at hlen
      exact h2 (by omega)

/-- C1: no element of the `get_neds_list` result is one of the three excluded
driver ids, nor any variant of them differing only in letter case or in
leading/trailing whitespace. -/
theorem neds_list_omits_excluded_variants (st : Store) (v : List Char)
    (hv : v ∈ get_neds_list st) :
    v ∉ excludedNeds ∧ ∀ e ∈ excludedNeds, ¬ isCaseTrimVariant v e := by
  have hc := count_colon_ne_one_of_mem_neds st v hv
  refine ⟨fun h => hc (count_colon_mem_excluded h), ?_⟩
  intro e he hvar
  apply hc
  have h1 : (pylower (pystrip v)).count ':' = v.count ':' := by
    rw [count_colon_pylower, count_colon_pystrip]
  have h2 : (pylower (pystrip e)).count ':' = e.count ':' := by
    rw [count_colon_pylower, count_colon_pystrip]
  have h3 := count_colon_mem_excluded he
  unfold isCaseTrimVariant at hvar
  rw [hvar, h2, h3] at h1
  omega

/-- C1 witness: the conclusion instantiated on a store holding one ordinary
ned id, whose stripped form is an element of the result. -/
theorem neds_list_omits_excluded_variants_witness :
    "cisco-iosxr".data ∈ get_neds_list nedStore ∧
    ("cisco-iosxr".data ∉ excludedNeds ∧
      ∀ e ∈ excludedNeds, ¬ isCaseTrimVariant "cisco-iosxr".data e) :=
  ⟨by decide,
   neds_list_omits_excluded_variants nedStore "cisco-iosxr".data (by decide)⟩

/-- C2 counterexample: `check_service_sync_status` does not trim its keypath
argument, so a path with surrounding whitespace does not resolve like the
trimmed path on a store where the trimmed path names a node. -/
theorem service_keypath_not_trimmed_cx :
    check_service_sync_status pathStore " /ncs:services/l3vpn/vpn1 ".data ≠
      check_service_sync_status pathStore
        (pystrip " /ncs:services/l3vpn/vpn1 ".data) := by
  intro h
  have h1 : check_service_sync_status pathStore
      " /ncs:services/l3vpn/vpn1 ".data
      = .error (keypathErrorMsg " /ncs:services/l3vpn/vpn1 ".data) := by
    rfl
  have h2 : check_service_sync_status pathStore
      (pystrip " /ncs:services/l3vpn/vpn1 ".data) = .ok "True".data := by
    rfl
  rw [h1, h2] at h
  exact Except.noConfusion h

/-- C2 amended: every handler taking a device or device-group name trims it
before lookup (the keypath argument of `check_service_sync_status` is the
exception and is used exactly as given). -/
theorem key_arguments_trimmed (st : Store) (s : List Char) :
    get_device_info st s = get_device_info st (pystrip s) ∧
    check_sync_devices_status st s = check_sync_devices_status st (pystrip s) ∧
    sync_device st s = sync_device st (pystrip s) ∧
    sync_device_group st s = sync_device_group st (pystrip s) ∧
    get_devices_from_device_group st s
      = get_devices_from_device_group st (pystrip s) ∧
    get_device_configured_services st s
      = get_device_configured_services st (pystrip s) := by
  refine ⟨?_, ?_, ?_, ?_, ?_, ?_⟩ <;>
    simp only [get_device_info, check_sync_devices_status, sync_device,
      sync_device_group, get_devices_from_device_group,
      get_device_configured_services, pystrip_idem]

theorem filterMap_eq_map_of_some (f : α → Option β) (g : α → β)
    (hfg : ∀ x, f x = some (g x)) (l : List α) : l.filterMap f = l.map g := by
  induction l with
  | nil => rfl
  | cons x t ih => simp [List.filterMap_cons, hfg x, ih]

theorem filterMap_guarded (q : α → Bool) (f : α → Option β) (g : α → β)
    (hfg : ∀ x, f x = some (g x)) (l : List α) :
    l.filterMap (fun x => if q x then f x else none) = (l.filter q).map g := by
  induction l with
  | nil => rfl
  | cons x t ih =>
    by_cases h : q x <;>
      simp [List.filterMap_cons, List.filter_cons, h, hfg x, ih]

theorem service_split_body (s : List Char) :
    (if (pysplit1 ':' s).length = 2 then
       some (pystrip ((pysplit1 ':' s).getD 1 []))
     else some s) = some (stripNsAmended s) := by
  by_cases h : ':' ∈ s
  · rcases pysplit1_of_mem ':' s h with ⟨a, ha⟩
    rw [ha, stripNsAmended, if_pos h]
    simp [List.getD]
  · rw [pysplit1_of_not_mem ':' s h, stripNsAmended, if_neg h]
    simp

/-- C3 counterexample: on a service-type name holding two colons the code
strips everything up to the first colon, while the claimed rule would return
the name unchanged. -/
theorem service_ns_strip_claim_cx :
    get_all_services svcStore = ["b:c".data] ∧
    stripNsClaim "a:b:c".data = "a:b:c".data ∧
    get_all_services svcStore ≠ svcStore.services.map stripNsClaim := by
  refine ⟨by decide, by decide, by decide⟩

/-- C3 amended: both service listings surface each name with everything
after the first colon kept (trimmed of surrounding whitespace) when a colon
occurs, and unchanged otherwise; the day-1 listing additionally keeps only
names containing the `-day1-` marker. -/
theorem services_strip_after_first_colon (st : Store) :
    get_all_services st = st.services.map stripNsAmended ∧
    get_day1_services st
      = (st.services.filter (fun s => isSub "-day1-".data s)).map
          stripNsAmended := by
  constructor
  · rw [get_all_services, loopAppend_eq_filterMap]
    exact filterMap_eq_map_of_some _ _ service_split_body _
  · rw [get_day1_services, loopAppend_eq_filterMap]
    exact filterMap_guarded _ _ _ service_split_body _

/-- C4: the round trip on the example device returns exactly the expected
`DeviceInfo`, and for every device with a populated netconf driver id the
projector sets `ned_type` to `netconf` and strips a two-segment namespace
prefix from `ned`. -/
theorem device_info_round_trip :
    get_device_info r1Store "r1".data
      = .ok (DeviceInfo.mk "r1".data "10.0.0.1".data "7.2".data "ios-xr".data
          "NCS5500".data "netconf".data "iosxr".data) ∧
    ∀ d : Device, d.netconf_ned_id ≠ [] →
      (build_device_info d).ned_type = "netconf".data ∧
      ∀ a b, pysplit ':' d.netconf_ned_id = [a, b] →
        (build_device_info d).ned = b := by
  constructor
  · rfl
  · intro d hd
    constructor
    · simp [build_device_info, hd]
    · intro a b hab
      simp [build_device_info, hd, hab, List.getD]

/-- C4 witness: the projector conclusions instantiated on the example
device. -/
theorem device_info_round_trip_witness :
    (build_device_info rDevice).ned_type = "netconf".data ∧
    (build_device_info rDevice).ned = "iosxr".data :=
  ⟨(device_info_round_trip.2 rDevice (by decide)).1,
   (device_info_round_trip.2 rDevice (by decide)).2 "ned".data "iosxr".data
     (by decide)⟩

/-- C5: a missing device group makes both group-scoped handlers raise the
NotFound `ValueError` carrying the trimmed group name in its message, and
the failed `sync_device_group` call performs no `sync_from` action. -/
theorem group_not_found_errors (st : Store) (g : List Char)
    (h : ∀ gr ∈ st.device_groups, gr.name ≠ pystrip g) :
    sync_device_group st g = .error (groupNotFoundMsg (pystrip g)) ∧
    get_devices_from_device_group st g
      = .error (groupNotFoundMsg (pystrip g)) ∧
    isSub (pystrip g) (groupNotFoundMsg (pystrip g)) = true ∧
    noSyncActions (sync_device_group_tr st g).2 = true := by
  have hf : st.device_groups.find? (fun x => x.name == pystrip g) = none := by
    rw [List.find?_eq_none]
    intro x hx
    simpa using h x hx
  refine ⟨?_, ?_, ?_, ?_⟩
  · simp [sync_device_group, hf]
  · simp [get_devices_from_device_group, hf]
  · exact isSub_append_self "The device group ".data (pystrip g)
      " could not be found in NSO CDB".data
  · simp [sync_device_group_tr, withRes, hf, noSyncActions]

/-- C5 witness: instantiated on a store with no groups at all. -/
theorem group_not_found_errors_witness :
    sync_device_group emptyStore "ghost-group".data
      = .error (groupNotFoundMsg (pystrip "ghost-group".data)) ∧
    get_devices_from_device_group emptyStore "ghost-group".data
      = .error (groupNotFoundMsg (pystrip "ghost-group".data)) ∧
    isSub (pystrip "ghost-group".data)
      (groupNotFoundMsg (pystrip "ghost-group".data)) = true ∧
    noSyncActions (sync_device_group_tr emptyStore "ghost-group".data).2
      = true :=
  group_not_found_errors emptyStore "ghost-group".data (by decide)

/-- C6: the projector yields `ned_type = unknown` exactly when both driver
id leaves are absent/empty, in which case `ned` is also `unknown`; a
populated netconf id always wins and yields `ned_type = netconf`. -/
theorem ned_type_unknown_iff (d : Device) :
    ((build_device_info d).ned_type = "unknown".data
      ↔ d.netconf_ned_id = [] ∧ d.cli_ned_id = []) ∧
    (d.netconf_ned_id = [] ∧ d.cli_ned_id = [] →
      (build_device_info d).ned = "unknown".data) ∧
    (d.netconf_ned_id ≠ [] →
      (build_device_info d).ned_type = "netconf".data) := by
  have hcu : ("cli".data : List Char) ≠ "unknown".data := by decide
  have hnu : ("netconf".data : List Char) ≠ "unknown".data := by decide
  have hu2 : (pysplit ':' ("unknown".data)).length ≠ 2 := by decide
  by_cases h1 : d.netconf_ned_id = []
  · by_cases h2 : d.cli_ned_id = []
    · refine ⟨?_, ?_, ?_⟩
      · simp [build_device_info, h1, h2]
      · intro _
        simp [build_device_info, h1, h2, hu2]
      · intro hc
        exact absurd h1 hc
    · refine ⟨?_, ?_, ?_⟩
      · simp [build_device_info, h1, h2, hcu]
      · intro hc
        exact absurd hc.2 h2
      · intro hc
        exact absurd h1 hc
  · refine ⟨?_, ?_, ?_⟩
    · simp [build_device_info, h1, hnu]
    · intro hc
      exact absurd hc.1 h1
    · intro _
      simp [build_device_info, h1]

/-- C6 witness: instantiated on a device record with no driver ids. -/
theorem ned_type_unknown_iff_witness :
    (build_device_info bareDevice).ned_type = "unknown".data ∧
    (build_device_info bareDevice).ned = "unknown".data :=
  ⟨(ned_type_unknown_iff bareDevice).1.mpr (by decide),
   (ned_type_unknown_iff bareDevice).2.1 (by decide)⟩

/-- C7: for an existing group `sync_device_group` returns exactly one
`SyncResult` per entry of the store's per-member outcome list, in the
store's reported order, with both fields passed through unchanged. -/
theorem sync_group_passthrough (st : Store) (g : List Char) (gr : DeviceGroup)
    (h : st.device_groups.find? (fun x => x.name == pystrip g) = some gr) :
    sync_device_group st g
      = .ok (gr.sync_outcome.map (fun it => SyncResult.mk it.device it.result)) ∧
    (gr.sync_outcome.map (fun it => SyncResult.mk it.device it.result)).length
      = gr.sync_outcome.length := by
  constructor
  · simp only [sync_device_group, h, loopAppend_eq_filterMap]
    rw [filterMap_some_fun]
  · simp

/-- C7 witness: a three-member group with one failing member yields a
three-element result list mirroring the store's outcome list. -/
theorem sync_group_passthrough_witness :
    sync_device_group grpStore "core".data
      = .ok [SyncResult.mk "r1".data "true".data,
             SyncResult.mk "r2".data "Connection refused".data,
             SyncResult.mk "r3".data "true".data] :=
  (sync_group_passthrough grpStore "core".data coreGroup (by rfl)).1

/-- C8: the model-excluding-version filter returns, in scan order, exactly
the projections of the devices whose lowercased platform name contains the
cleaned model and whose lowercased platform version does not contain the
cleaned version; membership in the result is equivalent to that condition. -/
theorem model_dont_match_version_filter (st : Store) (model version : List Char) :
    get_devices_list_per_model_dont_match_version st model version
      = (st.devices.filter (fun d =>
          isSub (pylower (pystrip model)) (pylower d.platform_name) &&
          !(isSub (pylower (pystrip version)) (pylower d.platform_version)))).map
            build_device_info ∧
    (∀ d ∈ st.devices,
      isSub (pylower (pystrip model)) (pylower d.platform_name) = true →
      isSub (pylower (pystrip version)) (pylower d.platform_version) = false →
      build_device_info d
        ∈ get_devices_list_per_model_dont_match_version st model version) ∧
    (∀ v ∈ get_devices_list_per_model_dont_match_version st model version,
      ∃ d ∈ st.devices,
        isSub (pylower (pystrip model)) (pylower d.platform_name) = true ∧
        isSub (pylower (pystrip version)) (pylower d.platform_version) = false ∧
        v = build_device_info d) := by
  have heq : get_devices_list_per_model_dont_match_version st model version
      = (st.devices.filter (fun d =>
          isSub (pylower (pystrip model)) (pylower d.platform_name) &&
          !(isSub (pylower (pystrip version)) (pylower d.platform_version)))).map
            build_device_info := by
    simp only [get_devices_list_per_model_dont_match_version,
      loopAppend_eq_filterMap]
    exact filterMap_guard _ _ _
  refine ⟨heq, ?_, ?_⟩
  · intro d hd hm hv
    rw [heq]
    exact List.mem_map_of_mem _
      (List.mem_filter.mpr ⟨hd, by simp [hm, hv]⟩)
  · intro v hv
    rw [heq] at hv
    rcases List.mem_map.mp hv with ⟨d, hdf, hbd⟩
    rcases List.mem_filter.mp hdf with ⟨hd, hcond⟩
    simp only [Bool.and_eq_true, Bool.not_eq_true'] at hcond
    exact ⟨d, hd, hcond.1, hcond.2, hbd.symm⟩

/-- C8 witness: the example device is included when the excluded version is
`7.3` and the result is empty when the excluded version is its own `7.2`. -/
theorem model_dont_match_version_filter_witness :
    build_device_info xrDevice
      ∈ get_devices_list_per_model_dont_match_version filtStore
          "ios-xr".data "7.3".data ∧
    get_devices_list_per_model_dont_match_version filtStore
      "ios-xr".data "7.2".data = [] :=
  ⟨(model_dont_match_version_filter filtStore "ios-xr".data "7.3".data).2.1
      xrDevice (by decide) (by decide) (by decide),
   by decide⟩

/-- C9: every operation handler acquires its transactions and sessions only
through `with` blocks, so each of the fifteen traced handlers releases
everything it acquired, in LIFO order, on every exit path — lookup hit,
lookup miss and store-failure paths included — and each traced embedding
agrees with the plain handler on the returned result. -/
theorem handlers_release_resources (st : Store) (s m v : List Char) :
    (wellScoped (get_neds_list_tr st).2 = true ∧
      (get_neds_list_tr st).1 = .ok (get_neds_list st)) ∧
    (wellScoped (get_devices_name_list_tr st).2 = true ∧
      (get_devices_name_list_tr st).1 = .ok (get_devices_name_list st)) ∧
    (wellScoped (get_devices_groups_list_tr st).2 = true ∧
      (get_devices_groups_list_tr st).1 = .ok (get_devices_groups_list st)) ∧
    (wellScoped (get_device_info_tr st s).2 = true ∧
      (get_device_info_tr st s).1 = get_device_info st s) ∧
    (wellScoped (check_sync_devices_status_tr st s).2 = true ∧
      (check_sync_devices_status_tr st s).1
        = check_sync_devices_status st s) ∧
    (wellScoped (sync_device_tr st s).2 = true ∧
      (sync_device_tr st s).1 = sync_device st s) ∧
    (wellScoped (sync_device_group_tr st s).2 = true ∧
      (sync_device_group_tr st s).1 = sync_device_group st s) ∧
    (wellScoped (get_devices_from_device_group_tr st s).2 = true ∧
      (get_devices_from_device_group_tr st s).1
        = get_devices_from_device_group st s) ∧
    (wellScoped (get_devices_list_per_model_tr st m).2 = true ∧
      (get_devices_list_per_model_tr st m).1
        = .ok (get_devices_list_per_model st m)) ∧
    (wellScoped (get_devices_list_per_model_and_version_tr st m v).2 = true ∧
      (get_devices_list_per_model_and_version_tr st m v).1
        = .ok (get_devices_list_per_model_and_version st m v)) ∧
    (wellScoped (get_devices_list_per_model_dont_match_version_tr st m v).2
        = true ∧
      (get_devices_list_per_model_dont_match_version_tr st m v).1
        = .ok (get_devices_list_per_model_dont_match_version st m v)) ∧
    (wellScoped (get_day1_services_tr st).2 = true ∧
      (get_day1_services_tr st).1 = .ok (get_day1_services st)) ∧
    (wellScoped (get_all_services_tr st).2 = true ∧
      (get_all_services_tr st).1 = .ok (get_all_services st)) ∧
    (wellScoped (get_device_configured_services_tr st s).2 = true ∧
      (get_device_configured_services_tr st s).1
        = get_device_configured_services st s) ∧
    (wellScoped (check_service_sync_status_tr st s).2 = true ∧
      (check_service_sync_status_tr st s).1
        = check_service_sync_status st s) := by
  refine ⟨⟨rfl, rfl⟩, ⟨rfl, rfl⟩, ⟨rfl, rfl⟩, ?_, ⟨rfl, rfl⟩, ?_, ?_,
    ⟨rfl, rfl⟩, ⟨rfl, rfl⟩, ⟨rfl, rfl⟩, ⟨rfl, rfl⟩, ⟨rfl, rfl⟩, ⟨rfl, rfl⟩,
    ⟨rfl, rfl⟩, ⟨rfl, rfl⟩⟩
  all_goals
    cases hd : st.devices.find? (fun d => d.name == pystrip s) <;>
    cases hg : st.device_groups.find? (fun x => x.name == pystrip s) <;>
      refine ⟨?_, ?_⟩ <;>
      simp [get_device_info_tr, get_device_info, sync_device_tr, sync_device,
        sync_device_group_tr, sync_device_group, withRes, wellScoped,
        wellScopedAux, relFor, isRel, hd, hg] <;>
      decide

/-- C10: `sync_device` names its `SyncResult` after the trimmed
caller-supplied argument, while `sync_device_group` names each element after
the device reported by the store's per-member outcome list. -/
theorem sync_result_name_provenance (st : Store) (s : List Char) :
    (∀ r, sync_device st s = .ok r → r.name = pystrip s) ∧
    (∀ gr l, st.device_groups.find? (fun x => x.name == pystrip s) = some gr →
      sync_device_group st s = .ok l →
      l.map SyncResult.name = gr.sync_outcome.map GroupSyncItem.device) := by
  constructor
  · intro r hr
    unfold sync_device at hr
    cases hd : st.devices.find? (fun d => d.name == pystrip s) <;>
      rw [hd] at hr
    · exact absurd hr (by simp)
    · rename_i d
      have hmk : SyncResult.mk (pystrip s) d.sync_result = r := by
        injection hr
      rw [← hmk]
  · intro gr l hgr hl
    simp only [sync_device_group, hgr, loopAppend_eq_filterMap,
      filterMap_some_fun] at hl
    have hml : gr.sync_outcome.map (fun it => SyncResult.mk it.device it.result)
        = l := by
      injection hl
    rw [← hml, List.map_map]
    rfl

/-- C10 witness: the device sync's name is the trimmed argument on a
whitespace-carrying call, and the group sync's names are the store-reported
names even where they differ from the group's member names. -/
theorem sync_result_name_provenance_witness :
    (SyncResult.mk "r9".data "true".data).name = pystrip " r9 ".data ∧
    ([SyncResult.mk "reported-e1".data "true".data]).map SyncResult.name
      = edgeGroup.sync_outcome.map GroupSyncItem.device :=
  ⟨(sync_result_name_provenance grpStore " r9 ".data).1
      (SyncResult.mk "r9".data "true".data) (by rfl),
   (sync_result_name_provenance grpStore "edge".data).2 edgeGroup
      [SyncResult.mk "reported-e1".data "true".data] (by rfl) (by rfl)⟩
